import Mathlib

/-!
# Crisis Detection Supervisor — shallow embedding

A shallow embedding of `examples/crisis_detection.py` (multi-tier crisis
detection: regex tier, ML tier stub, cache, per-user circuit breaker,
resource resolver, decision fuser, supervisor orchestration), together with
theorems settling the specification claims about it.

Modelling conventions:
* Message text is modelled as the list of its lower-cased word tokens
  (`Text`). A `\b(w1\s+w2|...)\b` regex alternative corresponds to a word
  list being a contiguous sublist of the tokens; an unanchored regex
  alternative (the CJK/Arabic patterns) corresponds to substring containment
  in the canonical character sequence of the text (tokens joined by single
  spaces). `p1.*p2` false-positive regexes correspond to an occurrence of
  `p1` followed by an occurrence of `p2` in that character sequence.
* Python floats are modelled as rationals (`ℚ`); every constant in the
  source (0.5, 0.6, 0.15, 0.82, 0.85, 0.95, ...) is exactly representable
  and no claim depends on binary-float rounding.
* `datetime.now()` timestamps are modelled as a `Nat` number of seconds
  passed explicitly to each state-touching operation; `timedelta` windows
  become second counts.
* Python dicts keyed by strings are modelled as association lists with
  overwrite-on-set semantics; the SHA-256 cache fingerprint is modelled as
  the hashed content itself (an injective stand-in — one-wayness is
  irrelevant to every claim).
* Wall-clock latency fields (`latency_ms`) and the analytics sink are not
  modelled: no claim observes them (the cache-idempotence claim explicitly
  excludes latency).
* The ML tier's two stage calls are the stubs from the source
  (`_tier1_screening` returns CONCERN/0.75, `_tier2_analysis` returns
  moderate/0.82); timeout of the ML tier and cancellation of either tier at
  the supervisor deadline are environment flags (`DetectEnv`), since they
  are scheduling events, not data.
-/

set_option maxRecDepth 8192

/-- `CrisisSeverity` enum: ordered severity levels (none < low < moderate <
high < critical), compared through their numeric `level` exactly as the
Python enum compares via `self.level`. -/
inductive CrisisSeverity where
  | NONE
  | LOW
  | MODERATE
  | HIGH
  | CRITICAL
deriving DecidableEq

/-- Numeric value of each severity (first component of the Python enum). -/
def CrisisSeverity.level : CrisisSeverity → Nat
  | .NONE => 0
  | .LOW => 1
  | .MODERATE => 2
  | .HIGH => 3
  | .CRITICAL => 4

/-- String label of each severity (second component of the Python enum). -/
def CrisisSeverity.label : CrisisSeverity → String
  | .NONE => "none"
  | .LOW => "low"
  | .MODERATE => "moderate"
  | .HIGH => "high"
  | .CRITICAL => "critical"

/-- `a >= b` on severities, the Python `__ge__` (level comparison). -/
def sevGe (a b : CrisisSeverity) : Bool := decide (b.level ≤ a.level)

/-- `CrisisCategory` enum. -/
inductive CrisisCategory where
  | SUICIDAL_IDEATION
  | SELF_HARM
  | HOPELESSNESS
  | DEATH_IDEATION
  | INDIRECT_SUICIDAL
  | FAREWELL
  | PLANNING
  | MEANS
deriving DecidableEq

/-- `RecommendedAction` enum. -/
inductive RecommendedAction where
  | PROCEED
  | MONITOR
  | INTERRUPT
deriving DecidableEq

/-- `CircuitState` enum. -/
inductive CircuitState where
  | CLOSED
  | OPEN
  | HALF_OPEN
deriving DecidableEq

/-- A message, as its list of lower-cased word tokens. -/
abbrev Text := List String

/-- The canonical string of a text: tokens joined by single spaces. -/
def textString (t : Text) : String := String.intercalate " " t

/-- The canonical character sequence of a text. -/
def textChars (t : Text) : List Char := (textString t).data

/-- Boolean contiguous-sublist test. -/
def listInfix {α : Type} [DecidableEq α] (p s : List α) : Bool :=
  decide (p <:+: s)

/-- Substring test on a character sequence. -/
def hasSubstr (s : List Char) (p : String) : Bool := listInfix p.data s

/-- Drop everything up to and including the first occurrence of `p` in `s`
(`none` if `p` does not occur). -/
def dropAfterMatch (p : List Char) : List Char → Option (List Char)
  | [] => if p.isEmpty then some [] else none
  | c :: rest =>
    if p.isPrefixOf (c :: rest) then some ((c :: rest).drop p.length)
    else dropAfterMatch p rest

/-- `re.search(p1 ++ ".*" ++ p2, s)` viability: an occurrence of `p1`
followed (at or after its end) by an occurrence of `p2`. -/
def containsSeq (s : List Char) (p1 p2 : String) : Bool :=
  match dropAfterMatch p1.data s with
  | some rest => listInfix p2.data rest
  | none => false

/-- `CrisisPattern` dataclass. A regex alternation `\b(a\s+b|c)\b` is
embedded as `wordPhrases := [["a","b"],["c"]]`; an unanchored alternation
(the CJK/Arabic rules, matched as raw substrings) as `rawPhrases`. -/
structure CrisisPattern where
  wordPhrases : List (List String) := []
  rawPhrases : List String := []
  severity : CrisisSeverity
  category : CrisisCategory
  language : String := "en"
  isDirect : Bool := true
  confidenceWeight : ℚ := 1
  culturalContext : Option String := none
  requiresContext : Bool := false
deriving DecidableEq

instance : Inhabited CrisisPattern :=
  ⟨{ severity := .NONE, category := .SUICIDAL_IDEATION }⟩

/-- `regex.search(text)` for one pattern: some word-bounded alternative is a
contiguous token run, or some raw alternative is a substring of the
canonical character sequence. -/
def CrisisPattern.matches (p : CrisisPattern) (t : Text) : Bool :=
  p.wordPhrases.any (fun ph => listInfix ph t) ||
    p.rawPhrases.any (fun ph => hasSubstr (textChars t) ph)

/-- `match.group()` for the first alternative of `p` that matches `t`. -/
def CrisisPattern.matchedGroup (p : CrisisPattern) (t : Text) : String :=
  match p.wordPhrases.find? (fun ph => listInfix ph t) with
  | some ph => String.intercalate " " ph
  | none =>
    ((p.rawPhrases.find? (fun ph => hasSubstr (textChars t) ph)).getD "")

/-- `PatternDatabase.get_patterns()["en"]`. -/
def enPatterns : List CrisisPattern :=
  [ -- Critical - Direct suicidal ideation
    { wordPhrases := [["kill", "myself"], ["end", "my", "life"],
        ["commit", "suicide"], ["take", "my", "life"]],
      severity := .CRITICAL, category := .SUICIDAL_IDEATION },
    { wordPhrases := [["want", "to", "die"], ["ready", "to", "die"],
        ["better", "off", "dead"]],
      severity := .CRITICAL, category := .SUICIDAL_IDEATION },
    { wordPhrases := [["going", "to", "kill"], ["about", "to", "end"],
        ["planning", "to", "die"]],
      severity := .CRITICAL, category := .PLANNING },
    -- Critical - Means and methods
    { wordPhrases := [["overdose"], ["hang", "myself"], ["jump", "off"],
        ["cut", "my", "wrists"]],
      severity := .CRITICAL, category := .MEANS },
    { wordPhrases := [["gun", "to", "my", "head"], ["pills", "to", "end"],
        ["poison", "myself"]],
      severity := .CRITICAL, category := .MEANS },
    -- High - Strong ideation
    { wordPhrases := [["suicidal"], ["want", "to", "hurt", "myself"],
        ["self", "harm"], ["self-harm"], ["selfharm"]],
      severity := .HIGH, category := .SELF_HARM },
    { wordPhrases := [["no", "reason", "to", "live"],
        ["life", "isn\x27t", "worth"], ["can\x27t", "go", "on"]],
      severity := .HIGH, category := .HOPELESSNESS },
    { wordPhrases := [["end", "it", "all"], ["end", "the", "pain"],
        ["make", "it", "stop"]],
      severity := .HIGH, category := .INDIRECT_SUICIDAL },
    -- High - Farewell indicators
    { wordPhrases := [["goodbye", "forever"], ["this", "is", "goodbye"],
        ["final", "goodbye"]],
      severity := .HIGH, category := .FAREWELL },
    { wordPhrases := [["won\x27t", "be", "around"],
        ["see", "you", "on", "the", "other", "side"]],
      severity := .HIGH, category := .FAREWELL },
    -- Moderate - Distress signals
    { wordPhrases := [["can\x27t", "take", "it"], ["can\x27t", "cope"],
        ["breaking", "point"]],
      severity := .MODERATE, category := .HOPELESSNESS,
      confidenceWeight := mkRat 8 10 },
    { wordPhrases := [["wish", "i", "was", "dead"], ["rather", "be", "dead"],
        ["death", "sounds"]],
      severity := .MODERATE, category := .DEATH_IDEATION,
      confidenceWeight := mkRat 8 10 },
    { wordPhrases := [["no", "way", "out"], ["trapped"], ["no", "escape"],
        ["hopeless"]],
      severity := .MODERATE, category := .HOPELESSNESS,
      confidenceWeight := mkRat 7 10 },
    -- Indirect/Metaphorical
    { wordPhrases := [["end", "of", "the", "road"], ["final", "curtain"],
        ["last", "stop"]],
      severity := .MODERATE, category := .INDIRECT_SUICIDAL,
      isDirect := false, confidenceWeight := mkRat 6 10 },
    { wordPhrases := [["disappear", "forever"], ["cease", "to", "exist"],
        ["fade", "away"]],
      severity := .MODERATE, category := .INDIRECT_SUICIDAL,
      isDirect := false, confidenceWeight := mkRat 6 10 } ]

/-- `PatternDatabase.get_patterns()["es"]`. -/
def esPatterns : List CrisisPattern :=
  [ { wordPhrases := [["quiero", "morir"], ["matarme"], ["suicidarme"],
        ["quitarme", "la", "vida"]],
      severity := .CRITICAL, category := .SUICIDAL_IDEATION,
      language := "es" },
    { wordPhrases := [["no", "puedo", "más"], ["no", "quiero", "vivir"],
        ["mejor", "muerto"]],
      severity := .HIGH, category := .HOPELESSNESS, language := "es" },
    { wordPhrases := [["acabar", "con", "todo"], ["terminar", "con", "esto"]],
      severity := .HIGH, category := .INDIRECT_SUICIDAL, language := "es" },
    { wordPhrases := [["sin", "esperanza"], ["desesperado"],
        ["no", "hay", "salida"]],
      severity := .MODERATE, category := .HOPELESSNESS, language := "es" } ]

/-- `PatternDatabase.get_patterns()["fr"]`. -/
def frPatterns : List CrisisPattern :=
  [ { wordPhrases := [["je", "veux", "mourir"], ["me", "suicider"],
        ["me", "tuer"], ["en", "finir"]],
      severity := .CRITICAL, category := .SUICIDAL_IDEATION,
      language := "fr" },
    { wordPhrases := [["plus", "de", "raison", "de", "vivre"],
        ["mieux", "vaut", "mourir"]],
      severity := .HIGH, category := .HOPELESSNESS, language := "fr" },
    { wordPhrases := [["désespéré"], ["sans", "espoir"],
        ["ne", "peux", "plus"]],
      severity := .MODERATE, category := .HOPELESSNESS, language := "fr" } ]

/-- `PatternDatabase.get_patterns()["zh"]` (unanchored regexes). -/
def zhPatterns : List CrisisPattern :=
  [ { rawPhrases := ["我想死", "自杀", "结束生命", "不想活"],
      severity := .CRITICAL, category := .SUICIDAL_IDEATION,
      language := "zh" },
    { rawPhrases := ["活不下去", "生不如死", "没有希望"],
      severity := .HIGH, category := .HOPELESSNESS, language := "zh" },
    { rawPhrases := ["绝望", "撑不下去", "崩溃"],
      severity := .MODERATE, category := .HOPELESSNESS, language := "zh" } ]

/-- `PatternDatabase.get_patterns()["de"]`. -/
def dePatterns : List CrisisPattern :=
  [ { wordPhrases := [["ich", "will", "sterben"], ["selbstmord"],
        ["mich", "umbringen"], ["mich", "töten"]],
      severity := .CRITICAL, category := .SUICIDAL_IDEATION,
      language := "de" },
    { wordPhrases := [["keinen", "grund", "zu", "leben"], ["hoffnungslos"],
        ["verzweifelt"]],
      severity := .HIGH, category := .HOPELESSNESS, language := "de" } ]

/-- `PatternDatabase.get_patterns()["pt"]`. -/
def ptPatterns : List CrisisPattern :=
  [ { wordPhrases := [["quero", "morrer"], ["me", "matar"], ["suicidar"],
        ["tirar", "minha", "vida"]],
      severity := .CRITICAL, category := .SUICIDAL_IDEATION,
      language := "pt" },
    { wordPhrases := [["não", "aguento", "mais"], ["sem", "esperança"],
        ["desesperado"]],
      severity := .MODERATE, category := .HOPELESSNESS, language := "pt" } ]

/-- `PatternDatabase.get_patterns()["ja"]` (unanchored regexes). -/
def jaPatterns : List CrisisPattern :=
  [ { rawPhrases := ["死にたい", "自殺", "消えたい", "終わりにしたい"],
      severity := .CRITICAL, category := .SUICIDAL_IDEATION,
      language := "ja" },
    { rawPhrases := ["生きる意味がない", "希望がない", "絶望"],
      severity := .HIGH, category := .HOPELESSNESS, language := "ja" } ]

/-- `PatternDatabase.get_patterns()["ar"]` (unanchored regexes). -/
def arPatterns : List CrisisPattern :=
  [ { rawPhrases := ["أريد أن أموت", "انتحار", "أقتل نفسي"],
      severity := .CRITICAL, category := .SUICIDAL_IDEATION,
      language := "ar" },
    { rawPhrases := ["لا أمل", "يائس", "لا أستطيع الاستمرار"],
      severity := .HIGH, category := .HOPELESSNESS, language := "ar" } ]

/-- `PatternDatabase.get_patterns()["it"]`. -/
def itPatterns : List CrisisPattern :=
  [ { wordPhrases := [["voglio", "morire"], ["suicidarmi"], ["uccidermi"],
        ["farla", "finita"]],
      severity := .CRITICAL, category := .SUICIDAL_IDEATION,
      language := "it" },
    { wordPhrases := [["non", "ce", "la", "faccio"], ["disperato"],
        ["senza", "speranza"]],
      severity := .MODERATE, category := .HOPELESSNESS, language := "it" } ]

/-- `PatternDatabase.get_patterns()["ko"]` (unanchored regexes; `\s*` gaps
give a with-space and a without-space alternative). -/
def koPatterns : List CrisisPattern :=
  [ { rawPhrases := ["죽고 싶", "죽고싶", "자살", "삶을 끝내고 싶",
        "삶을끝내고싶"],
      severity := .CRITICAL, category := .SUICIDAL_IDEATION,
      language := "ko" },
    { rawPhrases := ["희망이 없", "희망이없", "절망적", "더 이상 못",
        "더이상못"],
      severity := .HIGH, category := .HOPELESSNESS, language := "ko" } ]

/-- `PatternDatabase.get_patterns()`: the language-keyed catalog. -/
def getPatterns : List (String × List CrisisPattern) :=
  [("en", enPatterns), ("es", esPatterns), ("fr", frPatterns),
   ("zh", zhPatterns), ("de", dePatterns), ("pt", ptPatterns),
   ("ja", jaPatterns), ("ar", arPatterns), ("it", itPatterns),
   ("ko", koPatterns)]

/-- `self.patterns.get(language, self.patterns["en"])`. -/
def patternsFor (language : String) : List CrisisPattern :=
  ((getPatterns.find? (fun e => e.1 == language)).map (fun e => e.2)).getD
    enPatterns

/-- `RegexDetector._is_false_positive`: the 13 false-positive regexes from
`PatternDatabase.get_false_positive_patterns()`, in catalog order, run
against the (already lower-cased) text. -/
def isFalsePositive (t : Text) : Bool :=
  let s := textChars t
  containsSeq s "deadline" "kill" ||      -- deadline.*kill
  containsSeq s "kill" "time" ||          -- kill.*time
  containsSeq s "die" "laugh" ||          -- die.*laugh
  containsSeq s "die" "embarra" ||        -- die.*embarra
  containsSeq s "die" "bored" ||          -- die.*bored
  hasSubstr s "to die for" ||             -- to\s+die\s+for
  (hasSubstr s "drop dead" || hasSubstr s "drop-dead" ||
    hasSubstr s "dropdead") ||            -- drop[\s-]?dead
  containsSeq s "kill" "game" ||          -- kill.*game
  containsSeq s "crush" "kill" ||         -- crush.*kill
  containsSeq s "kill" "performan" ||     -- kill.*performan
  containsSeq s "die" "hair" ||           -- die.*hair
  containsSeq s "battery" "die" ||        -- battery.*die
  containsSeq s "phone" "die"             -- phone.*die

/-- `RegexDetector._detect_language`: script/character-range heuristics. -/
def detectLanguage (t : Text) : String :=
  let cs := textChars t
  if cs.any (fun c => decide (0x4e00 ≤ c.toNat ∧ c.toNat ≤ 0x9fff)) then "zh"
  else if cs.any (fun c => decide (0x600 ≤ c.toNat ∧ c.toNat ≤ 0x6ff)) then
    "ar"
  else if cs.any (fun c => decide ((0x3040 ≤ c.toNat ∧ c.toNat ≤ 0x309f) ∨
      (0x30a0 ≤ c.toNat ∧ c.toNat ≤ 0x30ff))) then "ja"
  else if cs.any (fun c => decide (0xac00 ≤ c.toNat ∧ c.toNat ≤ 0xd7af)) then
    "ko"
  else "en"

/-- `CrisisDetectionResult` dataclass. `latency_ms` (wall clock) and
`context_modifier` (never set anywhere in the source) are not modelled; the
`categories` set is modelled as the list of collected categories (no claim
observes it). -/
structure CrisisDetectionResult where
  severity : CrisisSeverity
  confidence : ℚ
  indicators : List String := []
  categories : List CrisisCategory := []
  requiresResources : Bool := false
  recommendedAction : RecommendedAction := .PROCEED
  detectionMethod : String := "unknown"
  language : String := "en"
  reasoning : Option String := none
  cacheHit : Bool := false
deriving DecidableEq

/-- Python `max()` over a list of severities (by `level`; the source only
applies it to non-empty lists, where the `NONE` seed is neutral). -/
def maxSevList : List CrisisSeverity → CrisisSeverity
  | [] => .NONE
  | s :: rest => rest.foldl (fun a b => if a.level < b.level then b else a) s

/-- Python `min` on two rationals (if-based so that it evaluates in the
kernel). -/
def minQ (a b : ℚ) : ℚ := if a ≤ b then a else b

/-- Python `max` on two rationals (if-based so that it evaluates in the
kernel). -/
def maxQ (a b : ℚ) : ℚ := if a ≤ b then b else a

/-- Python `max()` over a list of rationals (the source only applies it to
non-empty lists). -/
def maxQList : List ℚ → ℚ
  | [] => 0
  | x :: rest => rest.foldl maxQ x

namespace RegexDetector

/-- `RegexDetector.detect` (the `context` argument is never read by the
source body and is omitted). -/
def detect (text : Text) : CrisisDetectionResult :=
  -- Check false positives first
  if isFalsePositive text then
    { severity := .NONE, confidence := mkRat 19 20, indicators := ["false_positive"],
      detectionMethod := "regex_false_positive" }
  else
    let language := detectLanguage text
    let patterns := patternsFor language
    -- Check patterns
    let matched := patterns.filter (fun p => p.matches text)
    -- No matches
    if matched.isEmpty then
      { severity := .NONE, confidence := mkRat 9 10,
        detectionMethod := "regex_no_match", language := language }
    else
      -- Calculate severity and confidence
      let maxSeverity := maxSevList (matched.map (fun p => p.severity))
      let categories := matched.map (fun p => p.category)
      let indicators := (matched.take 5).map (fun p => p.matchedGroup text)
      let baseConfidence : ℚ :=
        minQ (mkRat 19 20) (mkRat 3 5 + mkRat matched.length 1 * mkRat 3 20)
      let weightedConfidence :=
        baseConfidence * maxQList (matched.map (fun p => p.confidenceWeight))
      -- Determine action
      let action :=
        if sevGe maxSeverity .HIGH then RecommendedAction.INTERRUPT
        else if maxSeverity = .MODERATE then RecommendedAction.MONITOR
        else RecommendedAction.PROCEED
      let requiresResources := sevGe maxSeverity .HIGH
      { severity := maxSeverity, confidence := weightedConfidence,
        indicators := indicators, categories := categories,
        requiresResources := requiresResources, recommendedAction := action,
        detectionMethod := "regex_" ++ language, language := language }

end RegexDetector

namespace MLDetector

/-- `_tier1_screening` stub: classification and confidence it returns. -/
def tier1Classification : String := "CONCERN"

/-- `_tier1_screening` stub confidence. -/
def tier1Confidence : ℚ := mkRat 3 4

/-- `_tier2_analysis` stub: the severity label it returns. -/
def tier2Severity : String := "moderate"

/-- `_tier2_analysis` stub confidence. -/
def tier2Confidence : ℚ := mkRat 41 50

/-- `_tier2_analysis` stub reasoning. -/
def tier2Reasoning : String :=
  "User expressing distress but no immediate danger"

/-- `severity_map.get(label, CrisisSeverity.NONE)` from
`MLDetector._convert_ml_result`. -/
def severityFromLabel (label : String) : CrisisSeverity :=
  if label = "none" then .NONE
  else if label = "low" then .LOW
  else if label = "moderate" then .MODERATE
  else if label = "high" then .HIGH
  else if label = "critical" then .CRITICAL
  else .NONE

/-- `action_map.get(label, RecommendedAction.PROCEED)` from
`MLDetector._convert_ml_result`. -/
def actionFromLabel (label : String) : RecommendedAction :=
  if label = "none" then .PROCEED
  else if label = "low" then .PROCEED
  else if label = "moderate" then .MONITOR
  else if label = "high" then .INTERRUPT
  else if label = "critical" then .INTERRUPT
  else .PROCEED

/-- `MLDetector._convert_ml_result` on the fields of the tier-2 result dict
that the conversion reads (severity label, confidence, reasoning). -/
def convertMlResult (severityLabel : String) (confidence : ℚ)
    (reasoning : Option String) : CrisisDetectionResult :=
  let severity := severityFromLabel severityLabel
  { severity := severity, confidence := confidence,
    requiresResources := sevGe severity .HIGH,
    recommendedAction := actionFromLabel severityLabel,
    detectionMethod := "ml_tier2", reasoning := reasoning }

/-- `MLDetector.detect`: with the stubbed stages, tier 1 answers CONCERN (so
the tier-1 SAFE early return is dead with the stub, transcribed anyway) and
tier 2 answers moderate/0.82. An `asyncio.TimeoutError` from either stage
(`timedOut`) yields the conservative fallback; the text/context arguments
are not read by the stubbed stages. -/
def detect (timedOut : Bool) (text : Text) : CrisisDetectionResult :=
  if timedOut then
    { severity := .MODERATE, confidence := mkRat 1 2,
      detectionMethod := "ml_timeout_fallback",
      recommendedAction := .MONITOR }
  else if tier1Classification = "SAFE" then
    { severity := .NONE, confidence := tier1Confidence,
      detectionMethod := "ml_tier1_safe" }
  else
    convertMlResult tier2Severity tier2Confidence (some tier2Reasoning)

end MLDetector

/-- `CacheManager`: in-memory TTL cache; the dict is an association list of
`(key, (result, timestamp))` with newest-first overwrite. -/
structure CacheManager where
  cache : List (String × CrisisDetectionResult × Nat) := []
  ttl : Nat := 300
deriving DecidableEq

namespace CacheManager

/-- `CacheManager.get`: fresh hit sets the `cache_hit` flag on the returned
result; a stale entry is evicted. Returns the (possibly evicted) cache as
second component. -/
def get (cm : CacheManager) (key : String) (now : Nat) :
    Option CrisisDetectionResult × CacheManager :=
  match cm.cache.find? (fun e => e.1 == key) with
  | some e =>
    if now - e.2.2 < cm.ttl then (some { e.2.1 with cacheHit := true }, cm)
    else (none, { cm with cache := cm.cache.filter (fun x => x.1 != key) })
  | none => (none, cm)

/-- `CacheManager.set`: unconditional overwrite with the current timestamp. -/
def set (cm : CacheManager) (key : String) (result : CrisisDetectionResult)
    (now : Nat) : CacheManager :=
  { cm with cache := (key, result, now) :: cm.cache.filter (fun x => x.1 != key) }

/-- `CacheManager.create_key`: content fingerprint of the message plus the
last 3 context messages (`context[-3:]`), modelled injectively (see header). -/
def create_key (text : Text) (context : List String) : String :=
  let content := textString text
  if context.isEmpty then content
  else content ++ "|||" ++
    String.intercalate "|||" (context.drop (context.length - 3))

end CacheManager

/-- `UserCrisisState` dataclass. -/
structure UserCrisisState where
  userId : String
  state : CircuitState := .CLOSED
  crisisCount : Nat := 0
  lastCrisisTime : Option Nat := none
  resourcesShownTime : Option Nat := none
  postCrisisMessages : Nat := 0
  severityHistory : List CrisisSeverity := []
deriving DecidableEq

/-- `UserCrisisState.should_bypass_analysis`: OPEN always bypasses; otherwise
a crisis within the window (default 30 minutes) bypasses when the cumulative
count is at least 3. -/
def UserCrisisState.should_bypass_analysis (s : UserCrisisState) (now : Nat)
    (windowMinutes : Nat := 30) : Bool :=
  if s.state = .OPEN then true
  else
    match s.lastCrisisTime with
    | some t =>
      if now - t < windowMinutes * 60 then decide (3 ≤ s.crisisCount)
      else false
    | none => false

/-- `CircuitBreaker`: per-user crisis state machine; `states` is the
user-keyed dict. -/
structure CircuitBreaker where
  threshold : Nat := 3
  window : Nat := 1800
  recovery : Nat := 900
  states : List (String × UserCrisisState) := []
deriving DecidableEq

namespace CircuitBreaker

/-- `self.states[user_id]` with lazy creation (read-only part). -/
def lookup (cb : CircuitBreaker) (userId : String) : UserCrisisState :=
  ((cb.states.find? (fun e => e.1 == userId)).map (fun e => e.2)).getD
    { userId := userId }

/-- Store a user state back into the dict. -/
def save (cb : CircuitBreaker) (userId : String) (s : UserCrisisState) :
    CircuitBreaker :=
  { cb with states := (userId, s) :: cb.states.filter (fun e => e.1 != userId) }

/-- The "reset counter if outside window" prelude of `record_crisis`. -/
def resetIfStale (cb : CircuitBreaker) (state : UserCrisisState)
    (now : Nat) : UserCrisisState :=
  match state.lastCrisisTime with
  | some t =>
    if cb.window < now - t then
      { state with crisisCount := 0, severityHistory := [] }
    else state
  | none => state

/-- `CircuitBreaker.record_crisis`: reset count/history outside the rolling
window; increment count, append severity, stamp the crisis time; trip to
OPEN at the threshold. (The `elif` recovery branch is transcribed although
the just-written timestamp makes it unreachable, as in the source.) -/
def record_crisis (cb : CircuitBreaker) (userId : String)
    (severity : CrisisSeverity) (now : Nat) :
    UserCrisisState × CircuitBreaker :=
  -- Reset counter if outside window
  let state := cb.resetIfStale (cb.lookup userId) now
  -- Record new crisis
  let state :=
    { state with
      crisisCount := state.crisisCount + 1
      lastCrisisTime := some now
      severityHistory := state.severityHistory ++ [severity] }
  -- Update circuit state
  let state :=
    if cb.threshold ≤ state.crisisCount then { state with state := .OPEN }
    else
      match state.lastCrisisTime with
      | some t =>
        if state.state = .OPEN ∧ cb.recovery < now - t then
          { state with state := .HALF_OPEN }
        else state
      | none => state
  (state, cb.save userId state)

/-- `CircuitBreaker.get_state`: self-healing read — an OPEN user whose last
crisis is older than the recovery period transitions to HALF_OPEN. -/
def get_state (cb : CircuitBreaker) (userId : String) (now : Nat) :
    UserCrisisState × CircuitBreaker :=
  let state := cb.lookup userId
  -- Check for recovery
  let state :=
    if state.state = .OPEN then
      match state.lastCrisisTime with
      | some t =>
        if cb.recovery < now - t then { state with state := .HALF_OPEN }
        else state
      | none => state
    else state
  (state, cb.save userId state)

/-- `CircuitBreaker.reset`. -/
def reset (cb : CircuitBreaker) (userId : String) : CircuitBreaker :=
  cb.save userId { userId := userId }

end CircuitBreaker

/-- `CrisisResource` dataclass. -/
structure CrisisResource where
  name : String
  phone : Option String := none
  text : Option String := none
  web : Option String := none
  availability : String := "24/7"
  languages : List String := ["en"]
  specialties : List String := []
  priority : Nat := 0
deriving DecidableEq

/-- The 988 Lifeline entry (head of the US list; named so theorems can
instantiate resource claims on it). -/
def lifeline988 : CrisisResource :=
  { name := "988 Suicide & Crisis Lifeline", phone := some "988",
    text := some "988", web := some "https://988lifeline.org",
    languages := ["en", "es"], priority := 1 }

/-- `ResourceManager._load_resources()["US"]`. -/
def usResources : List CrisisResource :=
  [ lifeline988,
    { name := "Crisis Text Line", text := some "HOME to 741741",
      web := some "https://crisistextline.org", languages := ["en"],
      priority := 2 },
    { name := "SAMHSA National Helpline", phone := some "1-800-662-4357",
      web := some "https://samhsa.gov", languages := ["en", "es"],
      priority := 3 },
    { name := "National Domestic Violence Hotline",
      phone := some "1-800-799-7233", text := some "START to 22522",
      web := some "https://thehotline.org", languages := ["en", "es"],
      specialties := ["domestic_violence"], priority := 4 },
    { name := "Línea de Crisis Hispana", phone := some "1-888-628-9454",
      web := some "https://suicidioprevencion.org", languages := ["es"],
      priority := 5 },
    { name := "Asian LifeNet Hotline", phone := some "1-877-990-8585",
      web := some "https://aalp.org/lifenet",
      languages := ["zh", "ko", "ja", "hi", "vi", "en"],
      specialties := ["asian_community"], priority := 6 },
    { name := "Mental Health Association for Chinese Communities",
      phone := some "1-800-881-8502", web := some "https://mhacc.org",
      languages := ["zh", "en"], specialties := ["chinese_community"],
      priority := 7 },
    { name := "Trevor Lifeline", phone := some "1-866-488-7386",
      text := some "START to 678678",
      web := some "https://thetrevorproject.org", languages := ["en", "es"],
      specialties := ["lgbtq", "youth"], priority := 8 },
    { name := "Trans Lifeline", phone := some "1-877-565-8860",
      web := some "https://translifeline.org", languages := ["en", "es"],
      specialties := ["transgender"], priority := 9 },
    { name := "Veterans Crisis Line", phone := some "1-800-273-8255",
      text := some "838255", web := some "https://veteranscrisisline.net",
      languages := ["en", "es"], specialties := ["veterans"],
      priority := 10 },
    { name := "StrongHearts Native Helpline", phone := some "1-844-762-8483",
      web := some "https://strongheartshelpline.org", languages := ["en"],
      specialties := ["native_american", "domestic_violence"],
      priority := 11 } ]

/-- `ResourceManager._load_resources()["GB"]` (and its `"UK"` alias). -/
def gbResources : List CrisisResource :=
  [ { name := "Samaritans", phone := some "116 123",
      web := some "https://samaritans.org", languages := ["en"],
      priority := 1 },
    { name := "Shout Crisis Text Line", text := some "SHOUT to 85258",
      web := some "https://giveusashout.org", languages := ["en"],
      priority := 2 } ]

/-- `ResourceManager._load_resources()`: the country-keyed directory. -/
def resourceDirectory : List (String × List CrisisResource) :=
  [ ("US", usResources),
    ("GB", gbResources),
    ("UK", gbResources),
    ("CA",
      [ { name := "Talk Suicide Canada", phone := some "1-833-456-4566",
          text := some "TALK to 45645", web := some "https://talksuicide.ca",
          languages := ["en", "fr"], priority := 1 },
        { name := "Kids Help Phone", phone := some "1-800-668-6868",
          text := some "CONNECT to 686868",
          web := some "https://kidshelpphone.ca", languages := ["en", "fr"],
          specialties := ["youth"], priority := 2 } ]),
    ("AU",
      [ { name := "Lifeline Australia", phone := some "13 11 14",
          text := some "0477 13 11 14", web := some "https://lifeline.org.au",
          languages := ["en"], priority := 1 } ]),
    ("FR",
      [ { name := "3114 - Numéro National de Prévention du Suicide",
          phone := some "3114", web := some "https://3114.fr",
          languages := ["fr"], priority := 1 },
        { name := "SOS Amitié", phone := some "09 72 39 40 50",
          web := some "https://sos-amitie.com", languages := ["fr"],
          priority := 2 } ]),
    ("DE",
      [ { name := "Telefonseelsorge", phone := some "0800 111 0 111",
          web := some "https://telefonseelsorge.de", languages := ["de"],
          priority := 1 },
        { name := "Nummer gegen Kummer", phone := some "116 111",
          web := some "https://nummergegenkummer.de", languages := ["de"],
          specialties := ["youth", "parents"], priority := 2 } ]),
    ("ES",
      [ { name := "024 - Línea de Atención a la Conducta Suicida",
          phone := some "024", web := some "https://024.es",
          languages := ["es"], priority := 1 },
        { name := "Teléfono de la Esperanza", phone := some "717 003 717",
          web := some "https://telefonodelaesperanza.org",
          languages := ["es"], priority := 2 } ]),
    ("IT",
      [ { name := "Telefono Amico Italia", phone := some "02 2327 2327",
          web := some "https://telefonoamico.it", languages := ["it"],
          priority := 1 } ]),
    ("NL",
      [ { name := "113 Zelfmoordpreventie", phone := some "113",
          web := some "https://113.nl", languages := ["nl"],
          priority := 1 } ]),
    ("BE",
      [ { name := "Centre de Prévention du Suicide", phone := some "0800 32 123",
          web := some "https://preventionsuicide.be", languages := ["fr", "nl"],
          priority := 1 } ]),
    ("AT",
      [ { name := "Telefonseelsorge Österreich", phone := some "142",
          web := some "https://telefonseelsorge.at", languages := ["de"],
          priority := 1 } ]),
    ("CH",
      [ { name := "Die Dargebotene Hand", phone := some "143",
          web := some "https://143.ch", languages := ["de", "fr", "it"],
          priority := 1 } ]),
    ("IE",
      [ { name := "Samaritans Ireland", phone := some "116 123",
          web := some "https://samaritans.ie", languages := ["en"],
          priority := 1 } ]),
    ("SE",
      [ { name := "Mind Självmordslinjen", phone := some "90101",
          web := some "https://mind.se", languages := ["sv"],
          priority := 1 } ]),
    ("DK",
      [ { name := "Kirkens SOS", phone := some "70 201 201",
          web := some "https://kirkens-sos.dk", languages := ["da"],
          priority := 1 } ]),
    ("NO",
      [ { name := "Mental Helse", phone := some "116 123",
          web := some "https://mentalhelse.no", languages := ["no"],
          priority := 1 } ]),
    ("FI",
      [ { name := "Crisis Line", phone := some "09 2525 0111",
          web := some "https://mieli.fi", languages := ["fi", "sv"],
          priority := 1 } ]),
    ("PL",
      [ { name := "Fundacja ITAKA", phone := some "22 654 11 11",
          web := some "https://itaka.org.pl", languages := ["pl"],
          priority := 1 } ]),
    ("CZ",
      [ { name := "Linka bezpečí", phone := some "116 111",
          web := some "https://linkabezpeci.cz", languages := ["cs"],
          specialties := ["youth"], priority := 1 } ]),
    ("HU",
      [ { name := "Kék Vonal", phone := some "116 123",
          web := some "https://kek-vonal.hu", languages := ["hu"],
          priority := 1 } ]),
    ("JP",
      [ { name := "TELL Lifeline", phone := some "03-5774-0992",
          web := some "https://telljp.com", languages := ["en", "ja"],
          priority := 1 } ]),
    ("KR",
      [ { name := "Korea Suicide Prevention Center", phone := some "1393",
          web := some "https://spckorea.or.kr", languages := ["ko"],
          priority := 1 } ]),
    ("IN",
      [ { name := "AASRA", phone := some "91-22-27546669",
          web := some "https://aasra.info", languages := ["en", "hi"],
          priority := 1 } ]),
    ("SG",
      [ { name := "Samaritans of Singapore", phone := some "1767",
          web := some "https://sos.org.sg", languages := ["en"],
          priority := 1 } ]),
    ("NZ",
      [ { name := "Lifeline Aotearoa", phone := some "0800 543 354",
          text := some "HELP to 4357", web := some "https://lifeline.org.nz",
          languages := ["en"], priority := 1 } ]),
    ("MX",
      [ { name := "Línea de la Vida", phone := some "800 911 2000",
          web := some "https://lineadelavida.gob.mx", languages := ["es"],
          priority := 1 } ]),
    ("BR",
      [ { name := "Centro de Valorização da Vida", phone := some "188",
          web := some "https://cvv.org.br", languages := ["pt"],
          priority := 1 } ]),
    ("AR",
      [ { name := "Centro de Asistencia al Suicida", phone := some "135",
          web := some "https://casbuenosaires.com.ar", languages := ["es"],
          priority := 1 } ]) ]

/-- `self.resources.get(country_code, self.resources.get("US", []))`. -/
def resourcesFor (countryCode : String) : List CrisisResource :=
  ((resourceDirectory.find? (fun e => e.1 == countryCode)).map
    (fun e => e.2)).getD usResources

/-- The ascending-priority order used by `filtered.sort(key=lambda x:
x.priority)`. -/
def priorityLe (a b : CrisisResource) : Prop := a.priority ≤ b.priority

instance : DecidableRel priorityLe := fun a b =>
  inferInstanceAs (Decidable (a.priority ≤ b.priority))

instance : IsTotal CrisisResource priorityLe :=
  ⟨fun a b => Nat.le_total a.priority b.priority⟩

instance : IsTrans CrisisResource priorityLe :=
  ⟨fun _ _ _ h1 h2 => Nat.le_trans h1 h2⟩

namespace ResourceManager

/-- `ResourceManager.get_resources`: country lookup with US fallback,
language filter (requested language or the "en" base fallback), ascending
priority sort, cap 3 for severity ≥ high else 2. -/
def get_resources (countryCode : String) (language : String := "en")
    (severity : CrisisSeverity := .HIGH) : List CrisisResource :=
  let resources := resourcesFor countryCode
  -- Filter by language support
  let filtered := resources.filter
    (fun r => decide (language ∈ r.languages ∨ "en" ∈ r.languages))
  -- Sort by priority
  let sorted := filtered.insertionSort priorityLe
  -- Return top 3 for high/critical, top 2 for moderate
  let limit := if sevGe severity .HIGH then 3 else 2
  sorted.take limit

end ResourceManager

/-- Substring test on strings (Python `in`). -/
def strContains (s sub : String) : Bool := listInfix sub.data s.data

/-- `"ml" in r.detection_method`: the fuser's test for an adaptive-classifier
result. -/
def isMl (r : CrisisDetectionResult) : Bool := strContains r.detectionMethod "ml"

/-- `CrisisDetectionSupervisor._create_fallback_result`. -/
def createFallbackResult : CrisisDetectionResult :=
  { severity := .MODERATE, confidence := mkRat 1 2,
    recommendedAction := .MONITOR, detectionMethod := "fallback" }

/-- `CrisisDetectionSupervisor._fuse_results`. -/
def fuseResults (results : List CrisisDetectionResult) :
    CrisisDetectionResult :=
  if results.isEmpty then createFallbackResult
  else
    -- Get highest severity / highest confidence
    let maxSeverity0 := maxSevList (results.map (fun r => r.severity))
    let maxConfidence := maxQList (results.map (fun r => r.confidence))
    -- Combine indicators and categories
    let allIndicators :=
      results.foldl (fun acc r => acc ++ r.indicators) ([] : List String)
    let allCategories :=
      results.foldl (fun acc r => acc ++ r.categories)
        ([] : List CrisisCategory)
    -- ML override: if ML confidence is very high, trust it even if lower
    -- severity (the source reads ml_results[0], the first ML-tier result)
    let mlResults := results.filter isMl
    let sevReason :=
      match mlResults with
      | r :: _ =>
        if mkRat 17 20 < r.confidence then (r.severity, r.reasoning)
        else (maxSeverity0, (none : Option String))
      | [] => (maxSeverity0, (none : Option String))
    let maxSeverity := sevReason.1
    let reasoning := sevReason.2
    -- Determine action
    let action :=
      if sevGe maxSeverity .HIGH then RecommendedAction.INTERRUPT
      else if maxSeverity = .MODERATE then RecommendedAction.MONITOR
      else RecommendedAction.PROCEED
    let requiresResources := sevGe maxSeverity .HIGH
    { severity := maxSeverity, confidence := maxConfidence,
      indicators := allIndicators.take 5, categories := allCategories,
      requiresResources := requiresResources, recommendedAction := action,
      detectionMethod := "fusion", reasoning := reasoning }

/-- Scheduling environment of one `detect` request: which tier tasks were in
the `done` set at the `asyncio.wait` deadline, whether the ML stages raised
`asyncio.TimeoutError`, and whether orchestration raised (the caught
`Exception` branch). -/
structure DetectEnv where
  regexDone : Bool := true
  mlDone : Bool := true
  mlTimeout : Bool := false
  orchError : Bool := false
deriving DecidableEq

/-- The tier results gathered from the `done` set, in the source's gathering
order (regex first, then ML). -/
def tierResults (env : DetectEnv) (text : Text) :
    List CrisisDetectionResult :=
  (if env.regexDone then [RegexDetector.detect text] else []) ++
    (if env.mlDone then [MLDetector.detect env.mlTimeout text] else [])

/-- `CrisisDetectionSupervisor`: owns the cache, the breaker and the
`enable_ml` switch (the detectors, resource manager and analytics sink are
stateless or unmodelled). -/
structure CrisisDetectionSupervisor where
  cache_manager : CacheManager := {}
  circuit_breaker : CircuitBreaker := {}
  enable_ml : Bool := true
deriving DecidableEq

/-- The response dict assembled by `_format_response` /
`_create_crisis_response`; keys absent from a branch are `none` (the crisis
response carries no confidence, cache-hit or method key, and only it carries
`bypassed_analysis = true`). The rendered resource message (presentation
text) is not modelled. -/
structure DetectResponse where
  severity : CrisisSeverity
  confidence : Option ℚ
  action : RecommendedAction
  categories : List CrisisCategory
  cacheHit : Option Bool
  method : Option String
  reasoning : Option String
  bypassedAnalysis : Bool
  resources : List CrisisResource
  circuitState : CircuitState
deriving DecidableEq

namespace CrisisDetectionSupervisor

/-- `CrisisDetectionSupervisor._create_crisis_response`. -/
def createCrisisResponse (sup : CrisisDetectionSupervisor) (now : Nat)
    (userId : String) (severity : CrisisSeverity)
    (countryCode language : String) (bypassed : Bool) :
    DetectResponse × CrisisDetectionSupervisor :=
  let resources := ResourceManager.get_resources countryCode language severity
  let gs := sup.circuit_breaker.get_state userId now
  ({ severity := severity, confidence := none, action := .INTERRUPT,
     categories := [], cacheHit := none, method := none, reasoning := none,
     bypassedAnalysis := bypassed, resources := resources,
     circuitState := gs.1.state },
   { sup with circuit_breaker := gs.2 })

/-- `CrisisDetectionSupervisor._format_response`. -/
def formatResponse (sup : CrisisDetectionSupervisor) (now : Nat)
    (result : CrisisDetectionResult) (userId countryCode : String)
    (language : Option String) :
    DetectResponse × CrisisDetectionSupervisor :=
  let lang := language.getD result.language
  let resources :=
    if result.requiresResources then
      ResourceManager.get_resources countryCode lang result.severity
    else []
  let gs := sup.circuit_breaker.get_state userId now
  ({ severity := result.severity, confidence := some result.confidence,
     action := result.recommendedAction, categories := result.categories,
     cacheHit := some result.cacheHit, method := some result.detectionMethod,
     reasoning := result.reasoning, bypassedAnalysis := false,
     resources := resources, circuitState := gs.1.state },
   { sup with circuit_breaker := gs.2 })

/-- The tier race and fusion of `CrisisDetectionSupervisor.detect`: the
`final_result` computation (parallel tiers fused if ML is enabled, the
fallback on orchestration error or an empty `done` set, regex alone
otherwise). -/
def computeFinalResult (sup : CrisisDetectionSupervisor) (env : DetectEnv)
    (text : Text) : CrisisDetectionResult :=
  if sup.enable_ml then
    if env.orchError then createFallbackResult
    else
      let results := tierResults env text
      if results.isEmpty then createFallbackResult
      else fuseResults results
  else RegexDetector.detect text

/-- The cache-miss tail of `CrisisDetectionSupervisor.detect`: compute the
final result, store it in the cache, record a crisis for severity ≥
moderate, and format the response. -/
def runTiersAndRespond (sup : CrisisDetectionSupervisor) (env : DetectEnv)
    (now : Nat) (text : Text) (userId : String) (cacheKey : String)
    (countryCode : String) (language : Option String) :
    DetectResponse × CrisisDetectionSupervisor :=
  -- Run detection (parallel if ML enabled), fuse, else regex only
  let finalResult := sup.computeFinalResult env text
  -- Cache result
  let sup3 :=
    { sup with
      cache_manager := sup.cache_manager.set cacheKey finalResult now }
  -- Record crisis if detected
  let sup4 :=
    if sevGe finalResult.severity .MODERATE then
      { sup3 with
        circuit_breaker :=
          (sup3.circuit_breaker.record_crisis userId
            finalResult.severity now).2 }
    else sup3
  sup4.formatResponse now finalResult userId countryCode language

/-- `CrisisDetectionSupervisor.detect`: bypass check, cache lookup, tier
race, fusion (or fallback), cache store, crisis recording, response. -/
def detect (sup : CrisisDetectionSupervisor) (env : DetectEnv) (now : Nat)
    (text : Text) (userId : String) (context : List String)
    (countryCode : String) (language : Option String) :
    DetectResponse × CrisisDetectionSupervisor :=
  -- Check circuit breaker
  let gs := sup.circuit_breaker.get_state userId now
  let sup1 := { sup with circuit_breaker := gs.2 }
  if gs.1.should_bypass_analysis now then
    -- Go straight to resources
    sup1.createCrisisResponse now userId .HIGH countryCode
      (language.getD "en") true
  else
    -- Check cache
    let cacheKey := CacheManager.create_key text context
    let lk := sup1.cache_manager.get cacheKey now
    let sup2 := { sup1 with cache_manager := lk.2 }
    match lk.1 with
    | some cached => sup2.formatResponse now cached userId countryCode language
    | none =>
      sup2.runTiersAndRespond env now text userId cacheKey countryCode
        language

end CrisisDetectionSupervisor

/-! ## Helper lemmas -/

/-- The severity fold of `maxSevList` dominates its seed. -/
theorem sevfold_ge_init (l : List CrisisSeverity) (a : CrisisSeverity) :
    a.level ≤
      (l.foldl (fun x y => if x.level < y.level then y else x) a).level := by
  induction l generalizing a with
  | nil => exact Nat.le_refl _
  | cons b rest ih =>
    simp only [List.foldl_cons]
    refine Nat.le_trans ?_ (ih _)
    by_cases h : a.level < b.level
    · simp only [if_pos h]
      exact Nat.le_of_lt h
    · simp only [if_neg h]
      exact Nat.le_refl _

/-- The severity fold of `maxSevList` dominates every list member. -/
theorem sevfold_ge_mem (l : List CrisisSeverity) (a s : CrisisSeverity)
    (h : s ∈ l) :
    s.level ≤
      (l.foldl (fun x y => if x.level < y.level then y else x) a).level := by
  induction l generalizing a with
  | nil => cases h
  | cons b rest ih =>
    simp only [List.foldl_cons]
    rcases List.mem_cons.mp h with rfl | h2
    · refine Nat.le_trans ?_ (sevfold_ge_init rest _)
      by_cases hab : a.level < s.level
      · simp only [if_pos hab]
        exact Nat.le_refl _
      · simp only [if_neg hab]
        exact Nat.le_of_not_lt hab
    · exact ih _ h2

/-- `maxSevList` dominates every member. -/
theorem mem_level_le_maxSevList {l : List CrisisSeverity}
    {s : CrisisSeverity} (h : s ∈ l) : s.level ≤ (maxSevList l).level := by
  cases l with
  | nil => cases h
  | cons a rest =>
    simp only [maxSevList]
    rcases List.mem_cons.mp h with rfl | h2
    · exact sevfold_ge_init rest s
    · exact sevfold_ge_mem rest a s h2

/-- Level 4 is only reached by CRITICAL. -/
theorem level_four_eq_critical (s : CrisisSeverity) (h : 4 ≤ s.level) :
    s = .CRITICAL := by
  cases s <;> simp_all [CrisisSeverity.level]

/-- A list containing CRITICAL has CRITICAL as its severity maximum. -/
theorem maxSevList_eq_critical {l : List CrisisSeverity}
    (h : CrisisSeverity.CRITICAL ∈ l) : maxSevList l = .CRITICAL :=
  level_four_eq_critical _ (mem_level_le_maxSevList h)

/-- The script heuristic only ever answers one of five language codes. -/
theorem detectLanguage_mem (t : Text) :
    detectLanguage t = "zh" ∨ detectLanguage t = "ar" ∨
    detectLanguage t = "ja" ∨ detectLanguage t = "ko" ∨
    detectLanguage t = "en" := by
  simp only [detectLanguage]
  split
  · simp
  · split
    · simp
    · split
      · simp
      · split
        · simp
        · simp

/-- No regex-tier detection method contains the substring "ml": the fuser
never classifies a regex result as an ML result. -/
theorem regex_method_not_ml (text : Text) :
    isMl (RegexDetector.detect text) = false := by
  unfold RegexDetector.detect
  by_cases hfp : isFalsePositive text
  · simp only [hfp, if_true]
    rfl
  · simp only [hfp, Bool.false_eq_true, if_false]
    by_cases hmt :
        ((patternsFor (detectLanguage text)).filter
          (fun p => p.matches text)).isEmpty
    · simp only [hmt, if_true]
      rfl
    · simp only [hmt, Bool.false_eq_true, if_false]
      rcases detectLanguage_mem text with h | h | h | h | h <;>
        simp only [h] <;> rfl

/-- The ML tier always reports an ML detection method. -/
theorem ml_method_is_ml (timedOut : Bool) (text : Text) :
    isMl (MLDetector.detect timedOut text) = true := by
  cases timedOut <;> rfl

/-- The stubbed ML tier never reports confidence above the 0.85 override
threshold. -/
theorem ml_confidence_le (timedOut : Bool) (text : Text) :
    ¬ mkRat 17 20 < (MLDetector.detect timedOut text).confidence := by
  cases timedOut <;> exact of_decide_eq_false rfl

/-- The stubbed ML tier reports severity MODERATE on every path that is
reachable with the stub stages. -/
theorem ml_severity_moderate (timedOut : Bool) (text : Text) :
    (MLDetector.detect timedOut text).severity = .MODERATE := by
  cases timedOut <;> rfl

/-- If the text is not a false positive and some pattern of the detected
language's catalog is CRITICAL and matches, the regex tier reports CRITICAL
with action INTERRUPT and resources required. -/
theorem regex_detect_critical (text : Text) (p : CrisisPattern)
    (hfp : isFalsePositive text = false)
    (hmem : p ∈ patternsFor (detectLanguage text))
    (hsev : p.severity = .CRITICAL)
    (hmatch : p.matches text = true) :
    (RegexDetector.detect text).severity = .CRITICAL ∧
    (RegexDetector.detect text).recommendedAction = .INTERRUPT ∧
    (RegexDetector.detect text).requiresResources = true := by
  have hpm : p ∈ (patternsFor (detectLanguage text)).filter
      (fun q => q.matches text) := List.mem_filter.mpr ⟨hmem, hmatch⟩
  have hne : ((patternsFor (detectLanguage text)).filter
      (fun q => q.matches text)).isEmpty = false := by
    cases hl : (patternsFor (detectLanguage text)).filter
        (fun q => q.matches text) with
    | nil => rw [hl] at hpm; cases hpm
    | cons a as => rfl
  have hcrit : CrisisSeverity.CRITICAL ∈
      ((patternsFor (detectLanguage text)).filter
        (fun q => q.matches text)).map (fun q => q.severity) :=
    List.mem_map.mpr ⟨p, hpm, hsev⟩
  have hmax : maxSevList (((patternsFor (detectLanguage text)).filter
      (fun q => q.matches text)).map (fun q => q.severity)) = .CRITICAL :=
    maxSevList_eq_critical hcrit
  simp only [RegexDetector.detect, hfp, Bool.false_eq_true, if_false, hne,
    hmax]
  exact ⟨trivial, rfl, rfl⟩

/-- Fusing the gathered tier results when the regex tier completed with a
CRITICAL verdict yields a CRITICAL INTERRUPT decision (the stubbed ML tier
never clears the 0.85 override bar). -/
theorem fused_critical (env : DetectEnv) (text : Text)
    (hr : env.regexDone = true)
    (hsev : (RegexDetector.detect text).severity = .CRITICAL) :
    (fuseResults (tierResults env text)).severity = .CRITICAL ∧
    (fuseResults (tierResults env text)).recommendedAction = .INTERRUPT ∧
    (fuseResults (tierResults env text)).requiresResources = true := by
  have hRml := regex_method_not_ml text
  cases hm : env.mlDone with
  | false =>
    have hres : tierResults env text = [RegexDetector.detect text] := by
      simp [tierResults, hr, hm]
    rw [hres]
    simp only [fuseResults, List.isEmpty_cons, Bool.false_eq_true, if_false,
      List.map_cons, List.map_nil, List.filter, hRml]
    rw [show maxSevList [(RegexDetector.detect text).severity] = .CRITICAL by
      rw [hsev]; decide]
    exact ⟨rfl, rfl, rfl⟩
  | true =>
    have hres : tierResults env text =
        [RegexDetector.detect text, MLDetector.detect env.mlTimeout text] := by
      simp [tierResults, hr, hm]
    rw [hres]
    have hMml := ml_method_is_ml env.mlTimeout text
    have hMc := ml_confidence_le env.mlTimeout text
    have hMs := ml_severity_moderate env.mlTimeout text
    simp only [fuseResults, List.isEmpty_cons, Bool.false_eq_true, if_false,
      List.map_cons, List.map_nil, List.filter, hRml, hMml]
    rw [if_neg hMc]
    rw [show maxSevList [(RegexDetector.detect text).severity,
        (MLDetector.detect env.mlTimeout text).severity] = .CRITICAL by
      rw [hsev, hMs]; decide]
    exact ⟨rfl, rfl, rfl⟩

/-- C2 (amended): a critical catalog phrase for the detected language, with
no false-positive co-occurrence, forces severity ≥ high and INTERRUPT on a
call that reaches fusion (regex tier completed, no orchestration error, no
cached entry). -/
theorem critical_phrase_interrupt_amended
    (sup : CrisisDetectionSupervisor) (env : DetectEnv) (now : Nat)
    (text : Text) (userId : String) (context : List String)
    (countryCode : String) (language : Option String) (p : CrisisPattern)
    (hregex : env.regexDone = true)
    (herr : env.orchError = false)
    (hmiss : (sup.cache_manager.get (CacheManager.create_key text context)
      now).1 = none)
    (hfp : isFalsePositive text = false)
    (hmem : p ∈ patternsFor (detectLanguage text))
    (hsev : p.severity = .CRITICAL)
    (hmatch : p.matches text = true) :
    sevGe ((sup.detect env now text userId context countryCode
      language).1).severity .HIGH = true ∧
    ((sup.detect env now text userId context countryCode
      language).1).action = .INTERRUPT := by
  obtain ⟨hRsev, hRact, hRreq⟩ := regex_detect_critical text p hfp hmem hsev
    hmatch
  by_cases hb : ((sup.circuit_breaker.get_state userId now).1
      ).should_bypass_analysis now = true
  · simp only [CrisisDetectionSupervisor.detect, hb, if_true,
      CrisisDetectionSupervisor.createCrisisResponse]
    exact ⟨rfl, trivial⟩
  · rw [Bool.not_eq_true] at hb
    simp only [CrisisDetectionSupervisor.detect, hb, Bool.false_eq_true,
      if_false, hmiss]
    by_cases hml : sup.enable_ml = true
    · have hte : (tierResults env text).isEmpty = false := by
        cases hm : env.mlDone <;> simp [tierResults, hregex, hm]
      obtain ⟨hFsev, hFact, hFreq⟩ := fused_critical env text hregex hRsev
      simp only [CrisisDetectionSupervisor.runTiersAndRespond,
        CrisisDetectionSupervisor.computeFinalResult, hml, if_true, herr,
        Bool.false_eq_true, if_false, hte,
        CrisisDetectionSupervisor.formatResponse]
      rw [hFsev, hFact]
      exact ⟨rfl, rfl⟩
    · rw [Bool.not_eq_true] at hml
      simp only [CrisisDetectionSupervisor.runTiersAndRespond,
        CrisisDetectionSupervisor.computeFinalResult, hml,
        Bool.false_eq_true, if_false,
        CrisisDetectionSupervisor.formatResponse]
      rw [hRsev, hRact]
      exact ⟨rfl, rfl⟩

/-- `CacheManager.get` never changes the TTL. -/
theorem cache_ttl_get (cm : CacheManager) (key : String) (now : Nat) :
    ((cm.get key now).2).ttl = cm.ttl := by
  unfold CacheManager.get
  cases h : cm.cache.find? (fun e => e.1 == key) with
  | none => rfl
  | some e =>
    dsimp only
    split <;> rfl

/-- Reading back a just-stored entry within the TTL returns it with the
cache-hit flag set. -/
theorem cache_get_set_same (cm : CacheManager) (key : String)
    (r : CrisisDetectionResult) (t now : Nat) (h : now - t < cm.ttl) :
    ((cm.set key r t).get key now).1 = some { r with cacheHit := true } := by
  unfold CacheManager.get CacheManager.set
  have hfind : ((key, r, t) :: cm.cache.filter (fun x => x.1 != key)).find?
      (fun e => e.1 == key) = some (key, r, t) := by
    simp [List.find?]
  simp only [hfind]
  simp only [if_pos h]

/-- `CacheManager.set` never changes the TTL. -/
theorem cache_ttl_set (cm : CacheManager) (key : String)
    (r : CrisisDetectionResult) (t : Nat) : (cm.set key r t).ttl = cm.ttl :=
  rfl

/-- Shape of a computed (non-bypassed, cache-missing) `detect` call: some
final result `F` determines the response's severity and confidence, is
stored in the cache under the request key with the call's timestamp, and the
TTL is untouched. -/
theorem detect_miss_spec (sup : CrisisDetectionSupervisor) (env : DetectEnv)
    (now : Nat) (text : Text) (userId : String) (context : List String)
    (countryCode : String) (language : Option String)
    (hnb : ((sup.circuit_breaker.get_state userId now).1
      ).should_bypass_analysis now = false)
    (hmiss : (sup.cache_manager.get (CacheManager.create_key text context)
      now).1 = none) :
    ∃ F : CrisisDetectionResult,
      (sup.detect env now text userId context countryCode
        language).1.severity = F.severity ∧
      (sup.detect env now text userId context countryCode
        language).1.confidence = some F.confidence ∧
      ((sup.detect env now text userId context countryCode
        language).2).cache_manager =
        ((sup.cache_manager.get (CacheManager.create_key text context)
          now).2).set (CacheManager.create_key text context) F now := by
  simp only [CrisisDetectionSupervisor.detect, hnb, Bool.false_eq_true,
    if_false, hmiss]
  refine ⟨_, rfl, rfl, ?_⟩
  simp only [CrisisDetectionSupervisor.runTiersAndRespond,
    CrisisDetectionSupervisor.formatResponse]
  split <;> rfl

/-- C8 (amended): a second identical call within the cache TTL repeats the
first decision's severity/confidence with cache-hit set, provided the
breaker does not mandate bypass at the second call (and the first call was
itself computed, not bypassed or cache-served). -/
theorem cache_idempotence_amended
    (sup : CrisisDetectionSupervisor) (env1 env2 : DetectEnv) (t1 t2 : Nat)
    (text : Text) (userId : String) (context : List String)
    (countryCode : String) (language : Option String)
    (hnb1 : ((sup.circuit_breaker.get_state userId t1).1
      ).should_bypass_analysis t1 = false)
    (hmiss : (sup.cache_manager.get (CacheManager.create_key text context)
      t1).1 = none)
    (hnb2 : ((((sup.detect env1 t1 text userId context countryCode
      language).2).circuit_breaker.get_state userId t2).1
      ).should_bypass_analysis t2 = false)
    (hfresh : t2 - t1 < sup.cache_manager.ttl) :
    (((sup.detect env1 t1 text userId context countryCode
      language).2).detect env2 t2 text userId context countryCode
      language).1.severity =
      (sup.detect env1 t1 text userId context countryCode
        language).1.severity ∧
    (((sup.detect env1 t1 text userId context countryCode
      language).2).detect env2 t2 text userId context countryCode
      language).1.confidence =
      (sup.detect env1 t1 text userId context countryCode
        language).1.confidence ∧
    (((sup.detect env1 t1 text userId context countryCode
      language).2).detect env2 t2 text userId context countryCode
      language).1.cacheHit = some true := by
  obtain ⟨F, hFsev, hFconf, hFcm⟩ := detect_miss_spec sup env1 t1 text
    userId context countryCode language hnb1 hmiss
  have hget2 : ((((sup.detect env1 t1 text userId context countryCode
      language).2).cache_manager).get (CacheManager.create_key text context)
      t2).1 = some { F with cacheHit := true } := by
    rw [hFcm]
    apply cache_get_set_same
    rw [cache_ttl_get]
    exact hfresh
  rw [hFsev, hFconf]
  set X := sup.detect env1 t1 text userId context countryCode language
    with hX
  simp only [CrisisDetectionSupervisor.detect, hnb2, Bool.false_eq_true,
    if_false, hget2, CrisisDetectionSupervisor.formatResponse]
  refine ⟨?_, ?_, ?_⟩ <;> trivial

/-- C1: whenever no tier results reach the fuser (both tiers missed the
deadline, or orchestration raised), a computed `detect` call answers the
fixed fallback — severity moderate, confidence 0.5, action monitor, method
"fallback" — and in particular never severity none / action proceed. -/
theorem fallback_on_total_tier_failure
    (sup : CrisisDetectionSupervisor) (env : DetectEnv) (now : Nat)
    (text : Text) (userId : String) (context : List String)
    (countryCode : String) (language : Option String)
    (henable : sup.enable_ml = true)
    (hfail : (env.regexDone = false ∧ env.mlDone = false) ∨
      env.orchError = true)
    (hnb : ((sup.circuit_breaker.get_state userId now).1
      ).should_bypass_analysis now = false)
    (hmiss : (sup.cache_manager.get (CacheManager.create_key text context)
      now).1 = none) :
    ((sup.detect env now text userId context countryCode
      language).1).severity = .MODERATE ∧
    ((sup.detect env now text userId context countryCode
      language).1).confidence = some (mkRat 1 2) ∧
    ((sup.detect env now text userId context countryCode
      language).1).action = .MONITOR ∧
    ((sup.detect env now text userId context countryCode
      language).1).method = some "fallback" ∧
    ((sup.detect env now text userId context countryCode
      language).1).severity ≠ .NONE ∧
    ((sup.detect env now text userId context countryCode
      language).1).action ≠ .PROCEED := by
  have hF : ∀ s : CrisisDetectionSupervisor, s.enable_ml = true →
      s.computeFinalResult env text = createFallbackResult := by
    intro s hs
    unfold CrisisDetectionSupervisor.computeFinalResult
    rcases hfail with ⟨hr, hm⟩ | ho
    · have hres : tierResults env text = [] := by
        simp [tierResults, hr, hm]
      by_cases horch : env.orchError = true
      · simp [hs, horch]
      · rw [Bool.not_eq_true] at horch
        simp [hs, horch, hres]
    · simp [hs, ho]
  simp only [CrisisDetectionSupervisor.detect, hnb, Bool.false_eq_true,
    if_false, hmiss, CrisisDetectionSupervisor.runTiersAndRespond]
  simp only [hF, henable]
  simp only [CrisisDetectionSupervisor.formatResponse, createFallbackResult]
  refine ⟨?_, ?_, ?_, ?_, ?_, ?_⟩ <;> simp

/-- C3: a text matching a false-positive filter pattern short-circuits the
regex tier to the fixed severity-none / confidence-0.95 result, independent
of any crisis-catalog phrase in the same text. -/
theorem false_positive_short_circuit (text : Text)
    (h : isFalsePositive text = true) :
    RegexDetector.detect text =
      { severity := .NONE, confidence := mkRat 19 20,
        indicators := ["false_positive"], categories := [],
        requiresResources := false, recommendedAction := .PROCEED,
        detectionMethod := "regex_false_positive", language := "en",
        reasoning := none, cacheHit := false } := by
  simp only [RegexDetector.detect, h, if_true]

/-- C4: `record_crisis` within the rolling window increments the count,
appends the severity and stamps the time; reaching the threshold puts the
circuit in OPEN; and a `detect` call under an active bypass condition
answers severity high / INTERRUPT marked as bypassed, leaves the cache
untouched and is independent of the message and of the tier schedule (no
tier runs, no cache consult). -/
theorem breaker_trip_and_bypass :
    (∀ (cb : CircuitBreaker) (userId : String) (severity : CrisisSeverity)
      (now t : Nat),
      (cb.lookup userId).lastCrisisTime = some t → now - t ≤ cb.window →
      ((cb.record_crisis userId severity now).1).crisisCount =
        (cb.lookup userId).crisisCount + 1 ∧
      ((cb.record_crisis userId severity now).1).severityHistory =
        (cb.lookup userId).severityHistory ++ [severity] ∧
      ((cb.record_crisis userId severity now).1).lastCrisisTime =
        some now) ∧
    (∀ (cb : CircuitBreaker) (userId : String) (severity : CrisisSeverity)
      (now : Nat),
      cb.threshold ≤ ((cb.record_crisis userId severity now).1).crisisCount →
      ((cb.record_crisis userId severity now).1).state = .OPEN) ∧
    (∀ (sup : CrisisDetectionSupervisor) (env env2 : DetectEnv) (now : Nat)
      (text text2 : Text) (userId : String) (context context2 : List String)
      (countryCode : String) (language : Option String),
      ((sup.circuit_breaker.get_state userId now).1
        ).should_bypass_analysis now = true →
      ((sup.detect env now text userId context countryCode
        language).1).severity = .HIGH ∧
      ((sup.detect env now text userId context countryCode
        language).1).action = .INTERRUPT ∧
      ((sup.detect env now text userId context countryCode
        language).1).bypassedAnalysis = true ∧
      ((sup.detect env now text userId context countryCode
        language).1).cacheHit = none ∧
      ((sup.detect env now text userId context countryCode
        language).2).cache_manager = sup.cache_manager ∧
      sup.detect env now text userId context countryCode language =
        sup.detect env2 now text2 userId context2 countryCode language) := by
  refine ⟨?_, ?_, ?_⟩
  · intro cb userId severity now t hlt hwin
    have hreset : cb.resetIfStale (cb.lookup userId) now = cb.lookup userId := by
      unfold CircuitBreaker.resetIfStale
      rw [hlt]
      exact if_neg (by omega)
    simp only [CircuitBreaker.record_crisis, hreset]
    repeat' split
    all_goals exact ⟨rfl, rfl, rfl⟩
  · intro cb userId severity now
    simp only [CircuitBreaker.record_crisis]
    generalize cb.resetIfStale (cb.lookup userId) now = base
    repeat' split
    all_goals intro h
    all_goals try dsimp only at h ⊢
    all_goals first | rfl | omega
  · intro sup env env2 now text text2 userId context context2 countryCode
      language hb
    simp only [CrisisDetectionSupervisor.detect, hb, if_true,
      CrisisDetectionSupervisor.createCrisisResponse]
    refine ⟨?_, ?_, ?_, ?_, ?_, ?_⟩ <;> trivial

/-- C5 (amended): a HALF_OPEN user bypasses exactly when the near-miss
clustering clause fires — a crisis within the 30-minute bypass window and a
cumulative count of at least 3; HALF_OPEN alone never causes bypass. -/
theorem half_open_bypass_amended (s : UserCrisisState) (now : Nat)
    (h : s.state = .HALF_OPEN) :
    (s.should_bypass_analysis now = true ↔
      ∃ t, s.lastCrisisTime = some t ∧ now - t < 30 * 60 ∧
        3 ≤ s.crisisCount) := by
  unfold UserCrisisState.should_bypass_analysis
  rw [h]
  rw [if_neg (by decide : ¬ (CircuitState.HALF_OPEN = CircuitState.OPEN))]
  cases hlt : s.lastCrisisTime with
  | none => simp
  | some t =>
    by_cases hw : now - t < 30 * 60
    · simp [hw]
    · simp [hw]

/-- C5 counterexample, reached through the public API: three recorded
crises at time 0 trip the breaker; a state read at 960s (past the 900s
recovery) self-heals to HALF_OPEN, yet the bypass check still answers true
(crisis 16 minutes ago, count 3). -/
def cbTripped : CircuitBreaker :=
  (((({} : CircuitBreaker).record_crisis "user-5" .HIGH 0).2.record_crisis
    "user-5" .HIGH 0).2.record_crisis "user-5" .HIGH 0).2

/-- C5 counterexample: a user whose circuit state is HALF_OPEN for whom
`should_bypass_analysis` returns true. -/
theorem half_open_bypass_counterexample :
    ((cbTripped.get_state "user-5" 960).1).state = .HALF_OPEN ∧
    ((cbTripped.get_state "user-5" 960).1).should_bypass_analysis 960 =
      true := by
  decide

/-- C6: an OPEN user whose last crisis is older than the recovery period
reads back as HALF_OPEN from `get_state` (self-healing read). -/
theorem open_recovery_half_open (cb : CircuitBreaker) (userId : String)
    (now t : Nat)
    (hstate : (cb.lookup userId).state = .OPEN)
    (htime : (cb.lookup userId).lastCrisisTime = some t)
    (hrec : cb.recovery < now - t) :
    ((cb.get_state userId now).1).state = .HALF_OPEN := by
  simp only [CircuitBreaker.get_state, hstate, htime, if_true]
  rw [if_pos hrec]

/-- C7 (amended): the fuser's override inspects the FIRST ML-tier result in
the list (`ml_results[0]`): its severity and reasoning replace the maximum
computation exactly when its confidence exceeds 0.85; otherwise (including
when no ML result is present) the fused severity is the maximum severity
across results. -/
theorem fuse_override_amended (results : List CrisisDetectionResult)
    (hne : results ≠ []) :
    (∀ (r : CrisisDetectionResult) (rest : List CrisisDetectionResult),
      results.filter isMl = r :: rest →
      (mkRat 17 20 < r.confidence →
        (fuseResults results).severity = r.severity ∧
        (fuseResults results).reasoning = r.reasoning) ∧
      (¬ mkRat 17 20 < r.confidence →
        (fuseResults results).severity =
          maxSevList (results.map (fun x => x.severity)))) ∧
    (results.filter isMl = [] →
      (fuseResults results).severity =
        maxSevList (results.map (fun x => x.severity))) := by
  have hie : results.isEmpty = false := by
    cases results with
    | nil => exact absurd rfl hne
    | cons a l => rfl
  constructor
  · intro r rest hfilter
    simp only [fuseResults, hie, Bool.false_eq_true, if_false, hfilter]
    constructor
    · intro hc
      rw [if_pos hc]
      exact ⟨rfl, rfl⟩
    · intro hc
      rw [if_neg hc]
  · intro hfilter
    simp only [fuseResults, hie, Bool.false_eq_true, if_false, hfilter]

/-- The two concrete ML-tier results of the C7 counterexample: the first has
low confidence and CRITICAL severity, the second has confidence 0.9 > 0.85
and severity NONE. -/
def mlLowConfCritical : CrisisDetectionResult :=
  { severity := .CRITICAL, confidence := mkRat 1 2,
    detectionMethod := "ml_tier2" }

/-- Second ML result of the C7 counterexample. -/
def mlHighConfNone : CrisisDetectionResult :=
  { severity := .NONE, confidence := mkRat 9 10,
    detectionMethod := "ml_tier2", reasoning := some "benign context" }

/-- C7 counterexample: a result list containing an ML result whose
confidence exceeds 0.85, yet the fused severity is not that result's
severity — the code only consults the first ML result. -/
theorem fuse_override_counterexample :
    mlHighConfNone ∈ [mlLowConfCritical, mlHighConfNone] ∧
    isMl mlHighConfNone = true ∧
    mkRat 17 20 < mlHighConfNone.confidence ∧
    (fuseResults [mlLowConfCritical, mlHighConfNone]).severity ≠
      mlHighConfNone.severity := by
  decide

/-- C9: resolved resources come from the requested country's list (with the
US fallback baked into `resourcesFor`), support the requested language or
the "en" base language, are sorted by ascending priority, and are capped at
3 for severity ≥ high and 2 otherwise. -/
theorem resource_resolution_bounds (countryCode language : String)
    (severity : CrisisSeverity) :
    (∀ r ∈ ResourceManager.get_resources countryCode language severity,
      r ∈ resourcesFor countryCode ∧
      (language ∈ r.languages ∨ "en" ∈ r.languages)) ∧
    List.Sorted priorityLe
      (ResourceManager.get_resources countryCode language severity) ∧
    (ResourceManager.get_resources countryCode language severity).length ≤
      (if sevGe severity .HIGH then 3 else 2) := by
  unfold ResourceManager.get_resources
  refine ⟨?_, ?_, ?_⟩
  · intro r hr
    have h1 : r ∈ ((resourcesFor countryCode).filter
        (fun x => decide (language ∈ x.languages ∨ "en" ∈ x.languages))
        ).insertionSort priorityLe :=
      (List.take_sublist _ _).subset hr
    have h2 := (List.mem_insertionSort priorityLe).mp h1
    have h3 := List.mem_filter.mp h2
    exact ⟨h3.1, of_decide_eq_true h3.2⟩
  · exact List.Pairwise.sublist (List.take_sublist _ _)
      (List.sorted_insertionSort priorityLe _)
  · rw [List.length_take]
    exact min_le_left _ _

/-- C10: an ML severity label outside the five known labels converts to the
least-escalating outcome — severity none, action proceed, no
resources — rather than a conservative fallback. -/
theorem unknown_ml_label_least_escalating (label : String) (confidence : ℚ)
    (reasoning : Option String)
    (h1 : label ≠ "none") (h2 : label ≠ "low") (h3 : label ≠ "moderate")
    (h4 : label ≠ "high") (h5 : label ≠ "critical") :
    (MLDetector.convertMlResult label confidence reasoning).severity =
      .NONE ∧
    (MLDetector.convertMlResult label confidence
      reasoning).recommendedAction = .PROCEED ∧
    (MLDetector.convertMlResult label confidence
      reasoning).requiresResources = false := by
  have hsev : MLDetector.severityFromLabel label = .NONE := by
    unfold MLDetector.severityFromLabel
    rw [if_neg h1, if_neg h2, if_neg h3, if_neg h4, if_neg h5]
  have hact : MLDetector.actionFromLabel label = .PROCEED := by
    unfold MLDetector.actionFromLabel
    rw [if_neg h1, if_neg h2, if_neg h3, if_neg h4, if_neg h5]
  simp only [MLDetector.convertMlResult, hsev, hact]
  refine ⟨?_, ?_, ?_⟩ <;> trivial

/-- C2 counterexample text: the false-positive phrase "this deadline is
killing me" co-occurring with the critical phrase "kill myself". -/
def texDeadline : Text :=
  ["this", "deadline", "is", "killing", "me", "and", "i", "want", "to",
   "kill", "myself"]

/-- C2 counterexample text: the Spanish critical phrase "quiero morir",
which the script heuristic routes to the English catalog. -/
def texSpanish : Text := ["quiero", "morir"]

/-- C2 counterexample: two texts containing a critical-severity catalog
phrase of a supported language on which the end-to-end `detect` (fresh
supervisor, default environment) answers only MODERATE / MONITOR — one
because the false-positive filter short-circuits the regex tier, one
because Latin-script Spanish is routed to the English catalog. -/
theorem critical_phrase_counterexample :
    ((patternsFor "en").headI ∈ patternsFor "en" ∧
     ((patternsFor "en").headI).severity = .CRITICAL ∧
     ((patternsFor "en").headI).matches texDeadline = true ∧
     ((({} : CrisisDetectionSupervisor).detect {} 0 texDeadline "userA" []
       "US" none).1).severity = .MODERATE ∧
     ((({} : CrisisDetectionSupervisor).detect {} 0 texDeadline "userA" []
       "US" none).1).action = .MONITOR) ∧
    ((patternsFor "es").headI ∈ patternsFor "es" ∧
     ((patternsFor "es").headI).severity = .CRITICAL ∧
     ((patternsFor "es").headI).matches texSpanish = true ∧
     ((({} : CrisisDetectionSupervisor).detect {} 0 texSpanish "userB" []
       "US" none).1).severity = .MODERATE ∧
     ((({} : CrisisDetectionSupervisor).detect {} 0 texSpanish "userB" []
       "US" none).1).action = .MONITOR) := by
  decide

/-- Text used by the C2 witness and the C8 counterexample: a pure critical
phrase with no false-positive co-occurrence. -/
def texKill : Text := ["i", "want", "to", "kill", "myself"]

/-- C2 witness. -/
theorem critical_phrase_interrupt_amended_witness :
    sevGe ((({} : CrisisDetectionSupervisor).detect {} 0 texKill "user-2" []
      "US" none).1).severity .HIGH = true ∧
    ((({} : CrisisDetectionSupervisor).detect {} 0 texKill "user-2" [] "US"
      none).1).action = .INTERRUPT :=
  critical_phrase_interrupt_amended {} {} 0 texKill "user-2" [] "US" none
    ((patternsFor "en").headI) rfl rfl (by decide) (by decide) (by decide)
    (by decide) (by decide)

/-- A breaker with two recent recorded crises for "user-8" (the C8
counterexample setup, reached through the public API). -/
def cbTwoCrises : CircuitBreaker :=
  ((({} : CircuitBreaker).record_crisis "user-8" .MODERATE 0
    ).2.record_crisis "user-8" .MODERATE 0).2

/-- Supervisor whose breaker already holds two recent crises for
"user-8". -/
def supTwoCrises : CrisisDetectionSupervisor :=
  { circuit_breaker := cbTwoCrises }

/-- C8 counterexample: for a user with two recent crises, a CRITICAL first
call trips the breaker, so the identical second call 1 second later (well
within the 300s TTL) is answered by the bypass path: severity HIGH instead
of CRITICAL and no cache-hit flag — the claim fails as universally stated. -/
theorem cache_idempotence_counterexample :
    ((601 : Nat) - 600 < supTwoCrises.cache_manager.ttl) ∧
    ((supTwoCrises.detect {} 600 texKill "user-8" [] "US" none).1).severity =
      .CRITICAL ∧
    (((supTwoCrises.detect {} 600 texKill "user-8" [] "US" none).2).detect
      {} 601 texKill "user-8" [] "US" none).1.severity = .HIGH ∧
    (((supTwoCrises.detect {} 600 texKill "user-8" [] "US" none).2).detect
      {} 601 texKill "user-8" [] "US" none).1.cacheHit = none := by
  decide

/-- C8 witness: for a fresh user the second identical call is served from
the cache with the first call's severity/confidence. -/
theorem cache_idempotence_amended_witness :
    (((({} : CrisisDetectionSupervisor).detect {} 0 texKill "user-8b" []
      "US" none).2).detect {} 10 texKill "user-8b" [] "US"
      none).1.severity =
      ((({} : CrisisDetectionSupervisor).detect {} 0 texKill "user-8b" []
        "US" none).1).severity ∧
    (((({} : CrisisDetectionSupervisor).detect {} 0 texKill "user-8b" []
      "US" none).2).detect {} 10 texKill "user-8b" [] "US"
      none).1.confidence =
      ((({} : CrisisDetectionSupervisor).detect {} 0 texKill "user-8b" []
        "US" none).1).confidence ∧
    (((({} : CrisisDetectionSupervisor).detect {} 0 texKill "user-8b" []
      "US" none).2).detect {} 10 texKill "user-8b" [] "US"
      none).1.cacheHit = some true :=
  cache_idempotence_amended {} {} {} 0 10 texKill "user-8b" [] "US" none
    (by decide) (by decide) (by decide) (by decide)

/-- Environment in which neither tier task finished before the deadline. -/
def envBothMissed : DetectEnv := { regexDone := false, mlDone := false }

/-- C1 witness. -/
theorem fallback_on_total_tier_failure_witness :
    ((({} : CrisisDetectionSupervisor).detect envBothMissed 0
      ["hello", "world"] "user-1" [] "US" none).1).severity = .MODERATE ∧
    ((({} : CrisisDetectionSupervisor).detect envBothMissed 0
      ["hello", "world"] "user-1" [] "US" none).1).confidence =
      some (mkRat 1 2) ∧
    ((({} : CrisisDetectionSupervisor).detect envBothMissed 0
      ["hello", "world"] "user-1" [] "US" none).1).action = .MONITOR ∧
    ((({} : CrisisDetectionSupervisor).detect envBothMissed 0
      ["hello", "world"] "user-1" [] "US" none).1).method =
      some "fallback" ∧
    ((({} : CrisisDetectionSupervisor).detect envBothMissed 0
      ["hello", "world"] "user-1" [] "US" none).1).severity ≠ .NONE ∧
    ((({} : CrisisDetectionSupervisor).detect envBothMissed 0
      ["hello", "world"] "user-1" [] "US" none).1).action ≠ .PROCEED :=
  fallback_on_total_tier_failure {} envBothMissed 0 ["hello", "world"]
    "user-1" [] "US" none rfl (Or.inl ⟨rfl, rfl⟩) (by decide) (by decide)

/-- C3 witness: `texDeadline` both matches a false-positive pattern and
contains a critical catalog phrase; the regex tier still answers the fixed
false-positive result. -/
theorem false_positive_short_circuit_witness :
    RegexDetector.detect texDeadline =
      { severity := .NONE, confidence := mkRat 19 20,
        indicators := ["false_positive"], categories := [],
        requiresResources := false, recommendedAction := .PROCEED,
        detectionMethod := "regex_false_positive", language := "en",
        reasoning := none, cacheHit := false } :=
  false_positive_short_circuit texDeadline (by decide)

/-- A breaker with a single crisis recorded at time 5 for "user-4". -/
def cbOneCrisis : CircuitBreaker :=
  (({} : CircuitBreaker).record_crisis "user-4" .MODERATE 5).2

/-- A breaker whose trip threshold is 1. -/
def cbLowThreshold : CircuitBreaker := { threshold := 1 }

/-- A breaker with three crises recorded at time 0 for "user-4b" (OPEN). -/
def cbTrippedB : CircuitBreaker :=
  (((({} : CircuitBreaker).record_crisis "user-4b" .HIGH 0).2.record_crisis
    "user-4b" .HIGH 0).2.record_crisis "user-4b" .HIGH 0).2

/-- Supervisor whose breaker is OPEN for "user-4b". -/
def supOpenUser : CrisisDetectionSupervisor :=
  { circuit_breaker := cbTrippedB }

/-- C4 witness. -/
theorem breaker_trip_and_bypass_witness :
    (((cbOneCrisis.record_crisis "user-4" .HIGH 10).1).crisisCount =
      (cbOneCrisis.lookup "user-4").crisisCount + 1 ∧
     ((cbOneCrisis.record_crisis "user-4" .HIGH 10).1).severityHistory =
      (cbOneCrisis.lookup "user-4").severityHistory ++ [.HIGH] ∧
     ((cbOneCrisis.record_crisis "user-4" .HIGH 10).1).lastCrisisTime =
      some 10) ∧
    ((cbLowThreshold.record_crisis "user-4" .LOW 0).1).state = .OPEN ∧
    (((supOpenUser.detect {} 0 ["hi"] "user-4b" [] "US" none).1).severity =
      .HIGH ∧
     ((supOpenUser.detect {} 0 ["hi"] "user-4b" [] "US" none).1).action =
      .INTERRUPT ∧
     ((supOpenUser.detect {} 0 ["hi"] "user-4b" [] "US"
       none).1).bypassedAnalysis = true ∧
     ((supOpenUser.detect {} 0 ["hi"] "user-4b" [] "US" none).1).cacheHit =
      none ∧
     ((supOpenUser.detect {} 0 ["hi"] "user-4b" [] "US"
       none).2).cache_manager = supOpenUser.cache_manager ∧
     supOpenUser.detect {} 0 ["hi"] "user-4b" [] "US" none =
       supOpenUser.detect envBothMissed 0 ["bye"] "user-4b" ["ctx"] "US"
         none) :=
  ⟨breaker_trip_and_bypass.1 cbOneCrisis "user-4" .HIGH 10 5 (by decide)
      (by decide),
   breaker_trip_and_bypass.2.1 cbLowThreshold "user-4" .LOW 0 (by decide),
   breaker_trip_and_bypass.2.2 supOpenUser {} envBothMissed 0 ["hi"] ["bye"]
      "user-4b" [] ["ctx"] "US" none (by decide)⟩

/-- C5 witness: the amended equivalence applied to the reachable HALF_OPEN
state (crisis 16 minutes ago, count 3 — clustering clause fires). -/
theorem half_open_bypass_amended_witness :
    ((cbTripped.get_state "user-5" 960).1).should_bypass_analysis 960 =
      true :=
  (half_open_bypass_amended ((cbTripped.get_state "user-5" 960).1) 960
    (by decide)).mpr ⟨0, by decide, by decide, by decide⟩

/-- C6 witness: the tripped breaker read back 901 seconds after the last
crisis (past the 900s recovery) is HALF_OPEN. -/
theorem open_recovery_half_open_witness :
    ((cbTripped.get_state "user-5" 901).1).state = .HALF_OPEN :=
  open_recovery_half_open cbTripped "user-5" 901 0 (by decide) (by decide)
    (by decide)

/-- An ML-tier result above the override bar (for the C7 witness). -/
def mlHighConfHigh : CrisisDetectionResult :=
  { severity := .HIGH, confidence := mkRat 9 10,
    detectionMethod := "ml_tier2", reasoning := some "contextual risk" }

/-- C7 witness: with a single ML result above the bar, its severity and
reasoning become the fused decision's. -/
theorem fuse_override_amended_witness :
    (fuseResults [mlHighConfHigh]).severity = mlHighConfHigh.severity ∧
    (fuseResults [mlHighConfHigh]).reasoning = mlHighConfHigh.reasoning :=
  ((fuse_override_amended [mlHighConfHigh] (by decide)).1 mlHighConfHigh []
    (by decide)).1 (by decide)

/-- C9 witness. -/
theorem resource_resolution_bounds_witness :
    (lifeline988 ∈ resourcesFor "US" ∧
      ("en" ∈ lifeline988.languages ∨ "en" ∈ lifeline988.languages)) ∧
    List.Sorted priorityLe (ResourceManager.get_resources "US" "en" .HIGH) ∧
    (ResourceManager.get_resources "US" "en" .HIGH).length ≤
      (if sevGe .HIGH .HIGH then 3 else 2) :=
  ⟨(resource_resolution_bounds "US" "en" .HIGH).1 lifeline988 (by decide),
   (resource_resolution_bounds "US" "en" .HIGH).2.1,
   (resource_resolution_bounds "US" "en" .HIGH).2.2⟩

/-- C10 witness: the unrecognized label "severe". -/
theorem unknown_ml_label_least_escalating_witness :
    (MLDetector.convertMlResult "severe" (mkRat 9 10) none).severity =
      .NONE ∧
    (MLDetector.convertMlResult "severe" (mkRat 9 10)
      none).recommendedAction = .PROCEED ∧
    (MLDetector.convertMlResult "severe" (mkRat 9 10)
      none).requiresResources = false :=
  unknown_ml_label_least_escalating "severe" (mkRat 9 10) none (by decide)
    (by decide) (by decide) (by decide) (by decide)
